import Mathlib

/-
  Verification of the python-netlink WebSocket command/event subsystem
  (pynetlink.websocket.NetlinkWebSocket) against its specification.

  The websocket module itself is not present under src/ (only its tests
  and examples are), so the definitions below are modelled from the
  specification, with the concrete behaviour points pinned by
  src/tests/test_websocket.py.
-/

namespace PyNetlink

/-- Modelled from the spec: the error taxonomy of §7 —
`NetlinkConnectionError`, `NetlinkAuthenticationError`,
`NetlinkTimeoutError`, `NetlinkCommandError`, each carrying a message. -/
inductive NetlinkError where
  | connectionError (msg : String)
  | authenticationError (msg : String)
  | timeoutError (msg : String)
  | commandError (msg : String)
deriving DecidableEq, Repr

/-- Contiguous-sublist test on character lists: does `needle` occur
contiguously inside the second list? -/
def containsSublist (needle : List Char) : List Char → Bool
  | [] => needle.isEmpty
  | c :: rest => List.isPrefixOf needle (c :: rest) || containsSublist needle rest

/-- Case-insensitive substring test on strings. -/
def containsCI (hay needle : String) : Bool :=
  containsSublist (needle.toList.map Char.toLower) (hay.toList.map Char.toLower)

/-- Modelled from the spec: the ways the transport layer can fail during
`connect()` (§4.1 failure classification): a timeout condition, a
socketio `ConnectionError` carrying a message, or any other unexpected
exception carrying a message. -/
inductive ConnectFailure where
  | timeout (msg : String)
  | connFailure (msg : String)
  | unexpected (msg : String)
deriving DecidableEq, Repr

/-- Modelled from the spec: `connect()` failure classification (§4.1),
missing module `pynetlink/websocket.py`. The authentication indicator is
pinned by the tests: `test_websocket_connect_auth_error` expects
`NetlinkConnectionError` for the message "Authentication failed", while
`test_websocket_connect_with_auth_error` expects
`NetlinkAuthenticationError` for "unauthorized access", and
`test_websocket_auto_reconnect_stops_on_auth_error` notes that
`connect()` checks for "unauthorized" (case-insensitive). -/
def classifyConnectError : ConnectFailure → NetlinkError
  | .timeout _ => .timeoutError "Connection timed out"
  | .connFailure msg =>
      if containsCI msg "unauthorized" then
        NetlinkError.authenticationError "Authentication failed"
      else
        NetlinkError.connectionError ("Failed to connect: " ++ msg)
  | .unexpected msg => .connectionError msg

/-- Minimal JSON value model for command payloads, acknowledgements and
event envelopes (§3 data model). -/
inductive Json where
  | null
  | str (s : String)
  | num (n : Int)
  | bool (b : Bool)
  | obj (fields : List (String × Json))

/-- Field lookup on a JSON object (none on non-objects). -/
def Json.getField (j : Json) (k : String) : Option Json :=
  match j with
  | .obj fs => fs.lookup k
  | _ => none

/-- String-valued field lookup. -/
def Json.getStr (j : Json) (k : String) : Option String :=
  match j.getField k with
  | some (.str s) => some s
  | _ => none

/-- Modelled from the spec: unwrap an inbound payload one level if it is
an object containing a `data` key (§3 event envelope / §4.2 ack shape
tolerance). -/
def unwrapData (j : Json) : Json :=
  match j.getField "data" with
  | some inner => inner
  | none => j

/-- Modelled from the spec: the single-assignment result slot of a
pending command (§3 PendingCommand, §9 design note: states
Pending / Resolved(value) / Rejected(error), settable exactly once). -/
inductive FutureState where
  | pending
  | resolved (v : Json)
  | rejected (e : NetlinkError)

/-- Modelled from the spec: the Command Correlator state — the pending
set mapping generated tokens to their result slots (§4.2,
`self._pending_commands`). -/
structure CorrState where
  pending : List (String × FutureState)

/-- Remove every entry for a token from the pending set. -/
def removeToken (l : List (String × FutureState)) (tok : String) :
    List (String × FutureState) :=
  l.filter (fun p => p.1 != tok)

/-- Modelled from the spec: the synchronous start of
`send_command(name, data, timeout)` (§4.2): when not connected, fail
immediately with `ConnectionError` ("not connected"); otherwise register
the fresh token with a pending result slot. -/
def sendCommandStart (connected : Bool) (s : CorrState) (tok : String) :
    Except NetlinkError CorrState :=
  if connected then
    Except.ok ⟨(tok, FutureState.pending) :: s.pending⟩
  else
    Except.error (NetlinkError.connectionError "Not connected to Netlink WebSocket")

/-- Settle a pending result slot from an unwrapped acknowledgement body:
status "ok" resolves with the full body, status "error" rejects with a
`CommandError` carrying the server-supplied error string. -/
def settleAck (body : Json) : FutureState :=
  match body.getStr "status" with
  | some "error" =>
      FutureState.rejected
        (NetlinkError.commandError ((body.getStr "error").getD "Command failed"))
  | _ => FutureState.resolved body

/-- Modelled from the spec: the `_on_command_ack` handler (§4.2). The
body may be nested one level under a `data` key; acks without an `id`,
for unknown tokens, or for already-settled slots are silently ignored.
Returns the new correlator state and the settled result slot delivered
to the awaiting `send_command` call, if any. -/
def onCommandAck (s : CorrState) (payload : Json) :
    CorrState × Option FutureState :=
  let body := unwrapData payload
  match body.getStr "id" with
  | none => (s, none)
  | some tok =>
      match s.pending.lookup tok with
      | none => (s, none)
      | some FutureState.pending =>
          (⟨removeToken s.pending tok⟩, some (settleAck body))
      | some _ => (⟨removeToken s.pending tok⟩, none)

/-- Modelled from the spec: the timeout path of `send_command` (§4.2):
remove the token from the pending set (if still present) and fail with a
`TimeoutError` naming the command. -/
def onTimeout (s : CorrState) (tok name : String) : CorrState × NetlinkError :=
  (⟨removeToken s.pending tok⟩,
   NetlinkError.timeoutError ("Command " ++ name ++ " timed out"))

/-- Settle a result slot during the disconnect flush: a still-pending
slot is rejected with a `ConnectionError`; an already-settled slot is
left untouched (single-assignment discipline, §5). -/
def flushSettle : FutureState → FutureState
  | FutureState.pending =>
      FutureState.rejected
        (NetlinkError.connectionError "Disconnected while waiting for acknowledgement")
  | f => f

/-- Modelled from the spec: the pending-command flush on forced
disconnect (§4.2 last bullet, `_on_disconnect`): snapshot the pending
set, clear it, and fail every still-pending slot with `ConnectionError`
("Disconnected while waiting for acknowledgement"). Returns the cleared
state and the final result slots observed by the awaiting calls. -/
def onDisconnectPending (s : CorrState) :
    CorrState × List (String × FutureState) :=
  (⟨[]⟩, s.pending.map (fun p => (p.1, flushSettle p.2)))

/-- Modelled from the spec: the reconnection configuration —
`reconnect_delay` (initial backoff) and `max_reconnect_delay`
(ceiling), §4.3. -/
structure SupConfig where
  initialDelay : ℚ
  maxDelay : ℚ
deriving DecidableEq

/-- Modelled from the spec: the supervisor-visible connection state —
`_should_reconnect`, `connected`, `_current_delay`, plus the number of
connection attempts made and the trace of backoff waits performed. -/
structure SupState where
  shouldReconnect : Bool
  connected : Bool
  currentDelay : ℚ
  attempts : Nat
  waits : List ℚ
deriving DecidableEq

/-- Modelled from the spec: a successful `connect()` as seen by the
supervisor (§4.1): state becomes Connected and the backoff delay is
reset to its initial configured value. -/
def connectSuccess (cfg : SupConfig) (s : SupState) : SupState :=
  { s with connected := true, currentDelay := cfg.initialDelay }

/-- Modelled from the spec: one supervisor attempt (§4.3 steps 2-5).
`none` is a successful connection; `some f` is a transport failure,
classified exactly as `connect()` classifies it: on
`AuthenticationError` set `shouldReconnect := false` and stop; on any
other failure double the backoff delay, capping at the ceiling. -/
def reconnectStep (cfg : SupConfig) (s : SupState)
    (outcome : Option ConnectFailure) : SupState :=
  match outcome with
  | none => connectSuccess cfg { s with attempts := s.attempts + 1 }
  | some f =>
      match classifyConnectError f with
      | NetlinkError.authenticationError _ =>
          { s with shouldReconnect := false, attempts := s.attempts + 1 }
      | _ =>
          { s with currentDelay := min (2 * s.currentDelay) cfg.maxDelay,
                   attempts := s.attempts + 1 }

/-- Modelled from the spec: the `_auto_reconnect` loop (§4.3) driven by
a script of transport outcomes, one per attempt. While
`shouldReconnect` is true and the connection is down: wait the current
backoff delay (recorded in `waits`), attempt to connect, and handle the
outcome via `reconnectStep`. -/
def autoReconnect (cfg : SupConfig) (s : SupState) :
    List (Option ConnectFailure) → SupState
  | [] => s
  | o :: rest =>
      if s.shouldReconnect && !s.connected then
        autoReconnect cfg
          (reconnectStep cfg { s with waits := s.waits ++ [s.currentDelay] } o) rest
      else s

/-- The kind of a subscriber callback: the dispatcher supports both
uniformly (§3 CallbackRegistration). -/
inductive CBKind where
  | sync
  | async
deriving DecidableEq, Repr

/-- A subscriber callback handle, identified by an id and a kind. -/
structure CB where
  id : Nat
  kind : CBKind
deriving DecidableEq, Repr

/-- Modelled from the spec: the callback registry — event names mapped
to ordered lists of callback handles (§4.4, `self._callbacks`). -/
def Registry := List (String × List CB)

/-- Modelled from the spec: `on(eventName)` registration (§4.4):
append the callback to the ordered list for the event, creating the
list if absent. -/
def onReg : Registry → String → CB → Registry
  | [], ev, cb => [(ev, [cb])]
  | (e, cbs) :: rest, ev, cb =>
      if e = ev then (e, cbs ++ [cb]) :: rest
      else (e, cbs) :: onReg rest ev cb

/-- Build a registry from a sequence of `on(event, cb)` registrations. -/
def buildRegistry (regs : List (String × CB)) : Registry :=
  regs.foldl (fun r p => onReg r p.1 p.2) []

/-- The ordered callback list a registry holds for an event. -/
def lookupCBs : Registry → String → List CB
  | [], _ => []
  | (e, cbs) :: rest, ev => if e = ev then cbs else lookupCBs rest ev

/-- Modelled from the spec: `dispatch(eventName, payload)` (§4.4) as an
invocation trace: every callback registered for the event is invoked
exactly once, in registration order, with the payload; no registered
callbacks means a no-op. -/
def dispatch (r : Registry) (ev : String) (payload : Json) : List (CB × Json) :=
  (lookupCBs r ev).map (fun cb => (cb, payload))

/-- Modelled from the spec: the payload transformation of the native
listener wrapper bound at connect time (§4.1): with no argument, an
empty object; with an argument that is an object containing a `data`
key, the nested value; otherwise the raw argument. -/
def wrapperPayload : Option Json → Json
  | none => Json.obj []
  | some j =>
      match j.getField "data" with
      | some inner => inner
      | none => j

/-- Modelled from the spec: the event names `connect()` binds native
listener wrappers for (§4.1): every event present in the callback
registry, plus the always-present connect/disconnect meta-events. -/
def boundEvents (r : Registry) : List String :=
  "connect" :: "disconnect" :: r.map (fun p => p.1)

/-- Modelled from the spec: delivery of an inbound native event after
connecting — the wrapper transforms the raw argument and dispatches it
to every callback registered for the event. -/
def deliver (r : Registry) (ev : String) (arg : Option Json) : List (CB × Json) :=
  dispatch r ev (wrapperPayload arg)

/-! Theorems settling the claims about the model above. -/

/-- Claim C1, counterexample: the connection-failure message
"Authentication failed" contains the indicator "authentication"
case-insensitively, yet `connect()` classifies it as a plain
`ConnectionError`, not an `AuthenticationError` (as pinned by
`test_websocket_connect_auth_error`). -/
theorem connect_classification_counterexample :
    containsCI "Authentication failed" "authentication" = true ∧
    classifyConnectError (ConnectFailure.connFailure "Authentication failed") =
      NetlinkError.connectionError "Failed to connect: Authentication failed" := by
  decide

/-- Claim C1 (amended): for every failure of `connect()`: a transport
timeout fails with `TimeoutError`; a connection failure whose message
contains, case-insensitively, the substring "unauthorized" fails with
`AuthenticationError`; any other connection failure fails with
`ConnectionError` carrying the original message; and any unexpected
exception type is wrapped as `ConnectionError` carrying its message. -/
theorem connect_error_classification (msg : String) :
    classifyConnectError (ConnectFailure.timeout msg) =
      NetlinkError.timeoutError "Connection timed out" ∧
    (containsCI msg "unauthorized" = true →
      classifyConnectError (ConnectFailure.connFailure msg) =
        NetlinkError.authenticationError "Authentication failed") ∧
    (containsCI msg "unauthorized" = false →
      classifyConnectError (ConnectFailure.connFailure msg) =
        NetlinkError.connectionError ("Failed to connect: " ++ msg)) ∧
    classifyConnectError (ConnectFailure.unexpected msg) =
      NetlinkError.connectionError msg := by
  refine ⟨rfl, fun h => ?_, fun h => ?_, rfl⟩
  · simp [classifyConnectError, h]
  · simp [classifyConnectError, h]

/-- Witness for C1 at concrete inputs: the message "unauthorized access"
contains "unauthorized" and is classified as an authentication error. -/
theorem connect_error_classification_witness :
    containsCI "unauthorized access" "unauthorized" = true ∧
    classifyConnectError (ConnectFailure.connFailure "unauthorized access") =
      NetlinkError.authenticationError "Authentication failed" :=
  ⟨by decide, ((connect_error_classification "unauthorized access").2.1 (by decide))⟩

/-- Claim C2: for every N and every set of N commands still pending when
a forced disconnect occurs, each of the N awaiting `send_command` calls
observes a `ConnectionError` indicating disconnection while waiting for
acknowledgement, and afterwards the pending-command set is empty. -/
theorem disconnect_fails_all_pending (toks : List String) :
    (onDisconnectPending ⟨toks.map (fun t => (t, FutureState.pending))⟩).1.pending
        = [] ∧
    (onDisconnectPending ⟨toks.map (fun t => (t, FutureState.pending))⟩).2 =
      toks.map (fun t => (t, FutureState.rejected
        (NetlinkError.connectionError
          "Disconnected while waiting for acknowledgement"))) := by
  refine ⟨rfl, ?_⟩
  simp [onDisconnectPending, flushSettle]

/-- Claim C10: if the pending-command set contains an entry whose result
slot is already resolved when the disconnect handler runs, the handler
(a total function) leaves that slot untouched — it is never
double-resolved — and the pending-command set is still left empty. -/
theorem disconnect_ignores_completed (l : List (String × FutureState))
    (tok : String) (v : Json) (h : (tok, FutureState.resolved v) ∈ l) :
    (onDisconnectPending ⟨l⟩).1.pending = [] ∧
    (tok, FutureState.resolved v) ∈ (onDisconnectPending ⟨l⟩).2 := by
  refine ⟨rfl, ?_⟩
  have hm := List.mem_map_of_mem (fun p => (p.1, flushSettle p.2)) h
  simpa [onDisconnectPending, flushSettle] using hm

/-- Witness for C10: a pending set holding one already-resolved slot is
flushed without double resolution and left empty. -/
theorem disconnect_ignores_completed_witness :
    (onDisconnectPending
        ⟨[("done", FutureState.resolved (Json.obj [("status", Json.str "ok")]))]⟩).1.pending
      = [] ∧
    ("done", FutureState.resolved (Json.obj [("status", Json.str "ok")])) ∈
      (onDisconnectPending
        ⟨[("done", FutureState.resolved (Json.obj [("status", Json.str "ok")]))]⟩).2 :=
  disconnect_ignores_completed
    [("done", FutureState.resolved (Json.obj [("status", Json.str "ok")]))]
    "done" (Json.obj [("status", Json.str "ok")]) (List.mem_singleton.mpr rfl)

/-- After removing a token from the pending set, looking it up finds
nothing. -/
theorem lookup_removeToken (l : List (String × FutureState)) (tok : String) :
    List.lookup tok (removeToken l tok) = none := by
  induction l with
  | nil => rfl
  | cons p rest ih =>
      obtain ⟨k, f⟩ := p
      simp only [removeToken, List.filter_cons] at ih ⊢
      by_cases h : k = tok
      · simpa [h] using ih
      · have ht : (tok == k) = false := beq_eq_false_iff_ne.mpr (Ne.symm h)
        simpa [h, List.lookup, ht] using ih

/-- Claim C3: for every command sent while connected, an acknowledgement
whose token matches the token of the command and whose status is "ok"
(possibly nested one level under a `data` key) resolves the awaiting
call with the full acknowledgement body, extra fields included. -/
theorem send_command_ack_ok (s s1 : CorrState) (tok : String) (body : Json)
    (hstart : sendCommandStart true s tok = Except.ok s1)
    (hid : body.getStr "id" = some tok)
    (hstatus : body.getStr "status" = some "ok") :
    (onCommandAck s1 (Json.obj [("data", body)])).2 =
      some (FutureState.resolved body) ∧
    (body.getField "data" = none →
      (onCommandAck s1 body).2 = some (FutureState.resolved body)) := by
  simp only [sendCommandStart, if_true, Except.ok.injEq] at hstart
  subst hstart
  have hunwrap : unwrapData (Json.obj [("data", body)]) = body := by
    simp [unwrapData, Json.getField, List.lookup]
  have hsettle : settleAck body = FutureState.resolved body := by
    simp [settleAck, hstatus]
  constructor
  · simp [onCommandAck, hunwrap, hid, List.lookup, hsettle]
  · intro hflat
    have hunwrap2 : unwrapData body = body := by
      simp [unwrapData, hflat]
    simp [onCommandAck, hunwrap2, hid, List.lookup, hsettle]

/-- Witness for C3: a concrete ok-acknowledgement, nested under `data`
and carrying the echoed command name, resolves with the full body. -/
theorem send_command_ack_ok_witness :
    (onCommandAck ⟨[("uuid-1", FutureState.pending)]⟩
        (Json.obj [("data", Json.obj
          [("id", Json.str "uuid-1"), ("status", Json.str "ok"),
           ("command", Json.str "command.desk.height")])])).2 =
      some (FutureState.resolved (Json.obj
        [("id", Json.str "uuid-1"), ("status", Json.str "ok"),
         ("command", Json.str "command.desk.height")])) :=
  (send_command_ack_ok ⟨[]⟩ ⟨[("uuid-1", FutureState.pending)]⟩ "uuid-1"
    (Json.obj [("id", Json.str "uuid-1"), ("status", Json.str "ok"),
               ("command", Json.str "command.desk.height")]) rfl rfl rfl).1

/-- Claim C4: for every command sent while connected, an acknowledgement
with matching token and status "error" (possibly nested under a `data`
key) fails the awaiting call with a `CommandError` carrying the
server-supplied error string. -/
theorem send_command_ack_error (s s1 : CorrState) (tok emsg : String) (body : Json)
    (hstart : sendCommandStart true s tok = Except.ok s1)
    (hid : body.getStr "id" = some tok)
    (hstatus : body.getStr "status" = some "error")
    (herr : body.getStr "error" = some emsg) :
    (onCommandAck s1 (Json.obj [("data", body)])).2 =
      some (FutureState.rejected (NetlinkError.commandError emsg)) ∧
    (body.getField "data" = none →
      (onCommandAck s1 body).2 =
        some (FutureState.rejected (NetlinkError.commandError emsg))) := by
  simp only [sendCommandStart, if_true, Except.ok.injEq] at hstart
  subst hstart
  have hunwrap : unwrapData (Json.obj [("data", body)]) = body := by
    simp [unwrapData, Json.getField, List.lookup]
  have hsettle : settleAck body =
      FutureState.rejected (NetlinkError.commandError emsg) := by
    simp [settleAck, hstatus, herr]
  constructor
  · simp [onCommandAck, hunwrap, hid, List.lookup, hsettle]
  · intro hflat
    have hunwrap2 : unwrapData body = body := by
      simp [unwrapData, hflat]
    simp [onCommandAck, hunwrap2, hid, List.lookup, hsettle]

/-- Witness for C4: a concrete error acknowledgement rejects with a
`CommandError` carrying the server error string. -/
theorem send_command_ack_error_witness :
    (onCommandAck ⟨[("uuid-2", FutureState.pending)]⟩
        (Json.obj [("data", Json.obj
          [("id", Json.str "uuid-2"), ("status", Json.str "error"),
           ("error", Json.str "Height out of range"),
           ("command", Json.str "command.desk.height")])])).2 =
      some (FutureState.rejected
        (NetlinkError.commandError "Height out of range")) :=
  (send_command_ack_error ⟨[]⟩ ⟨[("uuid-2", FutureState.pending)]⟩ "uuid-2"
    "Height out of range"
    (Json.obj [("id", Json.str "uuid-2"), ("status", Json.str "error"),
               ("error", Json.str "Height out of range"),
               ("command", Json.str "command.desk.height")]) rfl rfl rfl rfl).1

/-- Claim C5: for every command sent while connected with no matching
acknowledgement within the configured timeout, `send_command` fails
with a `TimeoutError` naming the command, and the token of the command is
removed from the pending-command set. -/
theorem send_command_timeout (s s1 : CorrState) (tok name : String)
    (hstart : sendCommandStart true s tok = Except.ok s1) :
    (onTimeout s1 tok name).2 =
      NetlinkError.timeoutError ("Command " ++ name ++ " timed out") ∧
    List.lookup tok (onTimeout s1 tok name).1.pending = none := by
  simp only [sendCommandStart, if_true, Except.ok.injEq] at hstart
  subst hstart
  exact ⟨rfl, lookup_removeToken _ tok⟩

/-- Witness for C5: a concrete timed-out command fails with a
`TimeoutError` naming it and its token is gone from the pending set. -/
theorem send_command_timeout_witness :
    (onTimeout ⟨[("uuid-3", FutureState.pending)]⟩ "uuid-3"
        "command.desk.height").2 =
      NetlinkError.timeoutError "Command command.desk.height timed out" ∧
    List.lookup "uuid-3"
      (onTimeout ⟨[("uuid-3", FutureState.pending)]⟩ "uuid-3"
        "command.desk.height").1.pending = none :=
  send_command_timeout ⟨[]⟩ ⟨[("uuid-3", FutureState.pending)]⟩ "uuid-3"
    "command.desk.height" rfl

/-- A supervisor whose `shouldReconnect` flag is down never attempts to
connect again, whatever outcomes remain available. -/
theorem autoReconnect_stopped (cfg : SupConfig) (s : SupState)
    (h : s.shouldReconnect = false) (l : List (Option ConnectFailure)) :
    autoReconnect cfg s l = s := by
  cases l with
  | nil => rfl
  | cons o rest => simp [autoReconnect, h]

/-- Claim C6: after each failed attempt that is not an authentication
failure, the backoff delay doubles, capped at the ceiling; and with
initial delay 0.01 and ceiling 0.08, three consecutive connection
failures followed by one success make the supervisor succeed on the 4th
attempt — having waited 0.01, 0.02, 0.04, 0.08 — with its delay reset
to the initial 0.01 after the success. -/
theorem reconnect_backoff (cfg : SupConfig) (s : SupState) (f : ConnectFailure)
    (hauth : ∀ m, classifyConnectError f ≠ NetlinkError.authenticationError m) :
    (reconnectStep cfg s (some f)).currentDelay =
      min (2 * s.currentDelay) cfg.maxDelay ∧
    autoReconnect ⟨1/100, 8/100⟩ ⟨true, false, 1/100, 0, []⟩
        [some (ConnectFailure.connFailure "Failed 1"),
         some (ConnectFailure.connFailure "Failed 2"),
         some (ConnectFailure.connFailure "Failed 3"), none] =
      ⟨true, true, 1/100, 4, [1/100, 2/100, 4/100, 8/100]⟩ := by
  constructor
  · rcases hc : classifyConnectError f with m | m | m | m
    · simp [reconnectStep, hc]
    · exact absurd hc (hauth m)
    · simp [reconnectStep, hc]
    · simp [reconnectStep, hc]
  · have h1 : classifyConnectError (ConnectFailure.connFailure "Failed 1") =
        NetlinkError.connectionError "Failed to connect: Failed 1" := by decide
    have h2 : classifyConnectError (ConnectFailure.connFailure "Failed 2") =
        NetlinkError.connectionError "Failed to connect: Failed 2" := by decide
    have h3 : classifyConnectError (ConnectFailure.connFailure "Failed 3") =
        NetlinkError.connectionError "Failed to connect: Failed 3" := by decide
    norm_num [autoReconnect, reconnectStep, connectSuccess, h1, h2, h3, min_def]

/-- Witness for C6: a plain connection failure doubles the delay
(capped), at the concrete configuration of the backoff scenario. -/
theorem reconnect_backoff_witness :
    (reconnectStep ⟨1/100, 8/100⟩ ⟨true, false, 1/100, 0, []⟩
        (some (ConnectFailure.connFailure "Failed 1"))).currentDelay =
      min (2 * (1/100 : ℚ)) (8/100 : ℚ) :=
  (reconnect_backoff ⟨1/100, 8/100⟩ ⟨true, false, 1/100, 0, []⟩
    (ConnectFailure.connFailure "Failed 1")
    (fun m h => by
      have hc : classifyConnectError (ConnectFailure.connFailure "Failed 1") =
          NetlinkError.connectionError "Failed to connect: Failed 1" := by decide
      rw [hc] at h
      exact NetlinkError.noConfusion h)).1

/-- Claim C7: whenever a connection attempt fails with a message
containing "unauthorized" (as "Unauthorized" does), the supervisor
makes exactly one attempt, drops `shouldReconnect` to false, and never
attempts to connect again, whatever outcomes remain in the script. -/
theorem reconnect_stops_on_auth (cfg : SupConfig) (d : ℚ) (msg : String)
    (h : containsCI msg "unauthorized" = true)
    (rest : List (Option ConnectFailure)) :
    autoReconnect cfg ⟨true, false, d, 0, []⟩
        (some (ConnectFailure.connFailure msg) :: rest) =
      ⟨false, false, d, 1, [d]⟩ := by
  have hclass : classifyConnectError (ConnectFailure.connFailure msg) =
      NetlinkError.authenticationError "Authentication failed" := by
    simp [classifyConnectError, h]
  have hstep : reconnectStep cfg ⟨true, false, d, 0, [] ++ [d]⟩
      (some (ConnectFailure.connFailure msg)) = ⟨false, false, d, 1, [d]⟩ := by
    simp [reconnectStep, hclass]
  rw [autoReconnect]
  simp only [Bool.not_false, Bool.and_self, if_true]
  rw [hstep]
  exact autoReconnect_stopped cfg ⟨false, false, d, 1, [d]⟩ rfl rest

/-- Witness for C7: with the failure message "Unauthorized access" and
two further available outcomes, the supervisor stops after exactly one
attempt with `shouldReconnect` false. -/
theorem reconnect_stops_on_auth_witness :
    autoReconnect ⟨1/100, 8/100⟩ ⟨true, false, 1/100, 0, []⟩
        [some (ConnectFailure.connFailure "Unauthorized access"), none, none] =
      ⟨false, false, 1/100, 1, [1/100]⟩ :=
  reconnect_stops_on_auth ⟨1/100, 8/100⟩ (1/100) "Unauthorized access"
    (by decide) [none, none]

/-- Registering a callback extends exactly the list of its own event,
at the end, and leaves the list of every other event unchanged. -/
theorem lookupCBs_onReg (r : Registry) (e ev : String) (cb : CB) :
    lookupCBs (onReg r e cb) ev =
      if e = ev then lookupCBs r ev ++ [cb] else lookupCBs r ev := by
  induction r with
  | nil =>
      by_cases h : e = ev <;> simp [onReg, lookupCBs, h]
  | cons p rest ih =>
      obtain ⟨k, cbs⟩ := p
      by_cases hk : k = e
      · subst hk
        by_cases h : k = ev <;> simp [onReg, lookupCBs, h]
      · have hne : ¬ e = k := fun hc => hk hc.symm
        by_cases h : k = ev
        · subst h
          simp [onReg, lookupCBs, hk, hne]
        · simp [onReg, lookupCBs, hk, h, ih]

/-- The callback list a built registry holds for an event is exactly the
in-order filter of the registration sequence, over any accumulator. -/
theorem lookupCBs_foldl (regs : List (String × CB)) (r : Registry) (ev : String) :
    lookupCBs (regs.foldl (fun acc p => onReg acc p.1 p.2) r) ev =
      lookupCBs r ev ++ (regs.filter (fun p => p.1 == ev)).map (fun p => p.2) := by
  induction regs generalizing r with
  | nil => simp
  | cons p rest ih =>
      rw [List.foldl_cons, ih, lookupCBs_onReg]
      by_cases h : p.1 = ev <;> simp [h, List.filter_cons]

/-- Claim C8: for every sequence of `on(event, cb)` registrations and
every payload, `dispatch(event, payload)` invokes each callback
registered for that event exactly once, in registration order, with the
payload, whatever the sync/async kind of each callback; and dispatch on an
event with no registered callbacks is a no-op. -/
theorem dispatch_invokes_in_order (regs : List (String × CB)) (ev : String)
    (payload : Json) :
    dispatch (buildRegistry regs) ev payload =
      ((regs.filter (fun p => p.1 == ev)).map (fun p => p.2)).map
        (fun cb => (cb, payload)) ∧
    (regs.filter (fun p => p.1 == ev) = [] →
      dispatch (buildRegistry regs) ev payload = []) := by
  have hmain : dispatch (buildRegistry regs) ev payload =
      ((regs.filter (fun p => p.1 == ev)).map (fun p => p.2)).map
        (fun cb => (cb, payload)) := by
    rw [dispatch, buildRegistry, lookupCBs_foldl]
    simp [lookupCBs]
  exact ⟨hmain, fun hnone => by rw [hmain, hnone]; rfl⟩

/-- Witness for C8: two callbacks of different kinds registered for the
same event are each invoked once, in order; an unknown event is a
no-op. -/
theorem dispatch_invokes_in_order_witness :
    dispatch (buildRegistry
        [("desk.state", ⟨1, CBKind.async⟩), ("desk.state", ⟨2, CBKind.sync⟩)])
        "desk.state" (Json.obj [("height", Json.num 100)]) =
      [(⟨1, CBKind.async⟩, Json.obj [("height", Json.num 100)]),
       (⟨2, CBKind.sync⟩, Json.obj [("height", Json.num 100)])] ∧
    dispatch (buildRegistry
        [("desk.state", ⟨1, CBKind.async⟩), ("desk.state", ⟨2, CBKind.sync⟩)])
        "unknown.event" (Json.obj []) = [] :=
  ⟨(dispatch_invokes_in_order
      [("desk.state", ⟨1, CBKind.async⟩), ("desk.state", ⟨2, CBKind.sync⟩)]
      "desk.state" (Json.obj [("height", Json.num 100)])).1,
   (dispatch_invokes_in_order
      [("desk.state", ⟨1, CBKind.async⟩), ("desk.state", ⟨2, CBKind.sync⟩)]
      "unknown.event" (Json.obj [])).2 (by decide)⟩

/-- An event with at least one registered callback is among the events
`connect()` binds native listener wrappers for. -/
theorem mem_boundEvents_of_lookupCBs_ne_nil (r : Registry) (ev : String)
    (h : lookupCBs r ev ≠ []) : ev ∈ boundEvents r := by
  rw [boundEvents]
  refine List.mem_cons_of_mem _ (List.mem_cons_of_mem _ ?_)
  induction r with
  | nil => exact absurd rfl h
  | cons p rest ih =>
      obtain ⟨k, cbs⟩ := p
      by_cases hk : k = ev
      · subst hk
        exact List.mem_cons_self _ _
      · refine List.mem_cons_of_mem _ (ih ?_)
        simpa [lookupCBs, hk] using h

/-- Claim C9: for every callback registered (at any position) for an
event before connecting: after connecting, a native wrapper is bound
for that event, an inbound payload wrapped as an object `{data: body}`
delivers the unwrapped inner `body` to the callback, and an event
arriving with no payload at all delivers an empty object. -/
theorem wrapper_unwraps_and_defaults (regs : List (String × CB)) (ev : String)
    (cb : CB) (body : Json)
    (h : cb ∈ (regs.filter (fun p => p.1 == ev)).map (fun p => p.2)) :
    ev ∈ boundEvents (buildRegistry regs) ∧
    (cb, body) ∈ deliver (buildRegistry regs) ev (some (Json.obj [("data", body)])) ∧
    (cb, Json.obj []) ∈ deliver (buildRegistry regs) ev none := by
  have hlist : lookupCBs (buildRegistry regs) ev =
      (regs.filter (fun p => p.1 == ev)).map (fun p => p.2) := by
    rw [buildRegistry, lookupCBs_foldl]
    simp [lookupCBs]
  have hcb : cb ∈ lookupCBs (buildRegistry regs) ev := by rw [hlist]; exact h
  refine ⟨?_, ?_, ?_⟩
  · exact mem_boundEvents_of_lookupCBs_ne_nil _ ev
      (fun hnil => by rw [hnil] at hcb; exact absurd hcb (List.not_mem_nil cb))
  · have hw : wrapperPayload (some (Json.obj [("data", body)])) = body := by
      simp [wrapperPayload, Json.getField, List.lookup]
    rw [deliver, hw, dispatch]
    exact List.mem_map_of_mem (fun cb => (cb, body)) hcb
  · rw [deliver, wrapperPayload, dispatch]
    exact List.mem_map_of_mem (fun cb => (cb, Json.obj [])) hcb

/-- Witness for C9: a callback registered for `desk.state` before
connecting receives the inner body of a `{data: ...}` envelope after
connecting, and an empty object when the event has no payload. -/
theorem wrapper_unwraps_and_defaults_witness :
    "desk.state" ∈
      boundEvents (buildRegistry [("desk.state", (⟨1, CBKind.sync⟩ : CB))]) ∧
    ((⟨1, CBKind.sync⟩ : CB), Json.obj [("height", Json.num 91)]) ∈
      deliver (buildRegistry [("desk.state", (⟨1, CBKind.sync⟩ : CB))]) "desk.state"
        (some (Json.obj [("data", Json.obj [("height", Json.num 91)])])) ∧
    ((⟨1, CBKind.sync⟩ : CB), Json.obj []) ∈
      deliver (buildRegistry [("desk.state", (⟨1, CBKind.sync⟩ : CB))])
        "desk.state" none :=
  wrapper_unwraps_and_defaults [("desk.state", ⟨1, CBKind.sync⟩)] "desk.state"
    ⟨1, CBKind.sync⟩ (Json.obj [("height", Json.num 91)]) (by decide)

end PyNetlink
